import Mathlib

/-!
Shallow embedding of `src/assertions.rs` from the test-framework repository.

The file models the six assertion macros (`kernel_error_eq`,
`kernel_error_has_message`, `kernel_error_starts_with`,
`kernel_error_contains`, `is_ok`, `is_error`) as pure Lean functions on a
`RustResult` sum type.  A Rust `panic!` is modelled by the `panicked`
constructor of `Outcome`, carrying the formatted diagnostic string; the
format strings are transcribed literally from the source.  `assert_eq!`
with a custom message is modelled as: if the two sides differ, panic with
the custom formatted message (the framework boilerplate that `assert_eq!`
adds around the custom message is not part of this repository and is not
modelled).  Rust `{:?}` (Debug) interpolation of a value is modelled by an
explicit representation function.
-/

/-- Modelled from the spec: `nape_kernel::error::Kind` is a closed
enumeration classifying the category of a failure (the glossary lists
validation, not-found, internal as examples); it is defined outside this
repository.  Its derived Rust `Debug` form is the constructor name. -/
inductive Kind where
  | Validation
  | NotFound
  | Internal
deriving DecidableEq

/-- Modelled from the spec: `nape_kernel::error::Audience` is a closed
enumeration identifying the intended recipient of an error message
(internal diagnostics vs. end-user-facing); it is defined outside this
repository.  Its derived Rust `Debug` form is the constructor name. -/
inductive Audience where
  | User
  | System
deriving DecidableEq

/-- Rust `Debug` rendering of a `Kind` value (constructor name). -/
def Kind.debugFmt : Kind → String
  | .Validation => "Validation"
  | .NotFound => "NotFound"
  | .Internal => "Internal"

/-- Rust `Debug` rendering of an `Audience` value (constructor name). -/
def Audience.debugFmt : Audience → String
  | .User => "User"
  | .System => "System"

/-- Modelled from the spec: `nape_kernel::error::Error`, the error
descriptor — a record with fields `kind`, `audience`, `message`; it is
defined outside this repository and only read by the assertions. -/
structure KernelError where
  kind : Kind
  audience : Audience
  message : String
deriving DecidableEq

/-- Rust `Debug` escaping of one character inside a string literal
(quote, backslash, newline, tab, carriage return; other characters are
rendered as themselves). -/
def rustDebugChar (c : Char) : String :=
  if c = '"' then "\\\""
  else if c = '\\' then "\\\\"
  else if c = '\n' then "\\n"
  else if c = '\t' then "\\t"
  else if c = '\r' then "\\r"
  else String.singleton c

/-- Rust `Debug` rendering of a string: surrounding quotes plus
character escaping, as `{:?}` prints a `String`. -/
def rustDebug (s : String) : String :=
  "\"" ++ String.join (s.data.map rustDebugChar) ++ "\""

/-- Rust `Debug` rendering of the error descriptor, as the derived
`Debug` of a three-field struct prints it. -/
def KernelError.debugFmt (e : KernelError) : String :=
  "Error \x7b kind: " ++ e.kind.debugFmt ++ ", audience: " ++ e.audience.debugFmt
    ++ ", message: " ++ rustDebug e.message ++ " \x7d"

/-- Rust's `Result<T, Error>`: the checked result consumed by the
assertions, with the `Ok`/`Err` constructors of the source. -/
inductive RustResult (α : Type) where
  | Ok (val : α)
  | Err (e : KernelError)
deriving DecidableEq

/-- Outcome of running one assertion macro in a test: either the macro
returns normally with a value (`()` for the four checking macros), or it
panics, aborting the current test with a diagnostic message. -/
inductive Outcome (α : Type) where
  | passed (val : α)
  | panicked (msg : String)
deriving DecidableEq

/-- Rust `"foo".starts_with(pat)`: the pattern is a prefix of the
string, anchored at offset 0. -/
def strStartsWith (s pat : String) : Bool :=
  pat.data.isPrefixOf s.data

/-- Substring scan on lists: the needle is a prefix of some suffix of
the haystack, tried left to right as Rust's substring search does. -/
def listIsInfixOf [BEq α] (p : List α) : List α → Bool
  | [] => p.isEmpty
  | a :: as => p.isPrefixOf (a :: as) || listIsInfixOf p as

/-- Rust `"foo".contains(pat)`: the pattern occurs somewhere within the
string. -/
def strContainsSub (s pat : String) : Bool :=
  listIsInfixOf pat.data s.data

/-- Diagnostic of the `Ok(val)` arm shared by `kernel_error_eq` and
`kernel_error_has_message` (format string transcribed from the source). -/
def fmtUnexpectedOk (valRepr : String) : String :=
  "An Error was expected, although one was not returned:\n\t" ++ valRepr

/-- Diagnostic of the `Ok(val)` arm of `kernel_error_starts_with` and
`kernel_error_contains`; the source misspells "returned" as "retured". -/
def fmtUnexpectedOkTypo (valRepr : String) : String :=
  "An Error was expected, although one was not retured:\n\t" ++ valRepr

/-- Kind-mismatch diagnostic of `kernel_error_eq`,
`kernel_error_has_message` and `kernel_error_contains`
("Expected: {:?},\n\tActual: {:?}"). -/
def fmtKindMismatch (expected actual : Kind) : String :=
  "Kind does not match.\n\tExpected: " ++ expected.debugFmt
    ++ ",\n\tActual: " ++ actual.debugFmt ++ "\n"

/-- Kind-mismatch diagnostic of `kernel_error_starts_with`
(tab-separated variant of the format string). -/
def fmtKindMismatchTab (expected actual : Kind) : String :=
  "Kind does not match.\n\tExpected:\t" ++ expected.debugFmt
    ++ "\n\tActual:\t" ++ actual.debugFmt ++ "\n"

/-- Audience-mismatch diagnostic of `kernel_error_eq`,
`kernel_error_has_message` and `kernel_error_contains`. -/
def fmtAudienceMismatch (expected actual : Audience) : String :=
  "Audience does not match.\n\tExpected: " ++ expected.debugFmt
    ++ "\n\tActual: " ++ actual.debugFmt ++ "\n"

/-- Audience-mismatch diagnostic of `kernel_error_starts_with`
(tab-separated, with a trailing space after the final newline as in the
source). -/
def fmtAudienceMismatchTab (expected actual : Audience) : String :=
  "Audience does not match.\n\tExpected:\t" ++ expected.debugFmt
    ++ "\n\tActual:\t" ++ actual.debugFmt ++ "\n "

/-- Message-mismatch diagnostic of `kernel_error_eq`. -/
def fmtMessageMismatch (expected actual : String) : String :=
  "The Error Message does not match.\n\tExpected:\t" ++ rustDebug expected
    ++ ",\n Actual:\t" ++ rustDebug actual ++ "\n"

/-- Empty-message diagnostic of `kernel_error_has_message` (a fixed
string that interpolates no values). -/
def fmtEmptyMessage : String :=
  "The error message is empty.  A populated error message is expected.\n"

/-- Prefix-mismatch diagnostic of `kernel_error_starts_with`. -/
def fmtStartsWithMismatch (expected actual : String) : String :=
  "The Error Message does not start with the expected phrase.\n\tExpected:\t"
    ++ rustDebug expected ++ "\n\tActual:\t" ++ rustDebug actual ++ "\n"

/-- Substring-mismatch diagnostic of `kernel_error_contains`; the source
says "does not contains". -/
def fmtContainsMismatch (expected actual : String) : String :=
  "The Error Message does not contains the expected phrase.\n\tExpected:\t"
    ++ rustDebug expected ++ "\n\tActual:\t" ++ rustDebug actual ++ "\n"

/-- Diagnostic of the `Err(e)` arm of `is_ok`. -/
def fmtUnexpectedFailure (e : KernelError) : String :=
  "An Ok was expected, although an Error was returned:\n\t" ++ e.debugFmt

/-- Diagnostic of the `Ok(val)` arm of `is_error`: a fixed string that
does not interpolate the success value. -/
def fmtErrorExpected : String :=
  "An error was expected, although one was not returned."

/-- The `kernel_error_eq!` macro: exact match on kind, audience and
message, checked in that order; the first mismatch panics. -/
def kernel_error_eq {α : Type} (reprVal : α → String) (result : RustResult α)
    (expected_kind : Kind) (expected_audience : Audience)
    (expected_message : String) : Outcome Unit :=
  match result with
  | .Ok val => .panicked (fmtUnexpectedOk (reprVal val))
  | .Err e =>
    if e.kind = expected_kind then
      if e.audience = expected_audience then
        if e.message ≠ expected_message then
          .panicked (fmtMessageMismatch expected_message e.message)
        else
          .passed ()
      else
        .panicked (fmtAudienceMismatch expected_audience e.audience)
    else
      .panicked (fmtKindMismatch expected_kind e.kind)

/-- The `kernel_error_has_message!` macro: exact match on kind and
audience, then the message must be non-empty (`e.message.len() == 0`
panics). -/
def kernel_error_has_message {α : Type} (reprVal : α → String)
    (result : RustResult α) (expected_kind : Kind)
    (expected_audience : Audience) : Outcome Unit :=
  match result with
  | .Ok val => .panicked (fmtUnexpectedOk (reprVal val))
  | .Err e =>
    if e.kind = expected_kind then
      if e.audience = expected_audience then
        if e.message.length = 0 then
          .panicked fmtEmptyMessage
        else
          .passed ()
      else
        .panicked (fmtAudienceMismatch expected_audience e.audience)
    else
      .panicked (fmtKindMismatch expected_kind e.kind)

/-- The `kernel_error_starts_with!` macro: exact match on kind and
audience, then `e.message.starts_with(expected_message)` must hold. -/
def kernel_error_starts_with {α : Type} (reprVal : α → String)
    (result : RustResult α) (expected_kind : Kind)
    (expected_audience : Audience) (expected_message : String) :
    Outcome Unit :=
  match result with
  | .Ok val => .panicked (fmtUnexpectedOkTypo (reprVal val))
  | .Err e =>
    if e.kind = expected_kind then
      if e.audience = expected_audience then
        if ¬ strStartsWith e.message expected_message then
          .panicked (fmtStartsWithMismatch expected_message e.message)
        else
          .passed ()
      else
        .panicked (fmtAudienceMismatchTab expected_audience e.audience)
    else
      .panicked (fmtKindMismatchTab expected_kind e.kind)

/-- The `kernel_error_contains!` macro: exact match on kind and
audience, then `e.message.contains(expected_message)` must hold. -/
def kernel_error_contains {α : Type} (reprVal : α → String)
    (result : RustResult α) (expected_kind : Kind)
    (expected_audience : Audience) (expected_message : String) :
    Outcome Unit :=
  match result with
  | .Ok val => .panicked (fmtUnexpectedOkTypo (reprVal val))
  | .Err e =>
    if e.kind = expected_kind then
      if e.audience = expected_audience then
        if ¬ strContainsSub e.message expected_message then
          .panicked (fmtContainsMismatch expected_message e.message)
        else
          .passed ()
      else
        .panicked (fmtAudienceMismatch expected_audience e.audience)
    else
      .panicked (fmtKindMismatch expected_kind e.kind)

/-- The `is_ok!` macro: unwraps `Ok(val)` to `val`, panics on `Err(e)`
reporting the descriptor. -/
def is_ok {α : Type} (result : RustResult α) : Outcome α :=
  match result with
  | .Ok val => .passed val
  | .Err e => .panicked (fmtUnexpectedFailure e)

/-- The `is_error!` macro: unwraps `Err(e)` to `e`, panics on `Ok(_)`
with a fixed message. -/
def is_error {α : Type} (result : RustResult α) : Outcome KernelError :=
  match result with
  | .Ok _ => .panicked fmtErrorExpected
  | .Err e => .passed e

/-- The substring scan decides `List.IsInfix`. -/
theorem listIsInfixOf_iff_infix [BEq α] [LawfulBEq α] {p l : List α} :
    listIsInfixOf p l = true ↔ p <:+: l := by
  induction l with
  | nil => simp [listIsInfixOf, List.isEmpty_iff]
  | cons a as ih => simp [listIsInfixOf, ih, List.infix_cons_iff]

/-- `strContainsSub` decides infix occurrence on the character lists. -/
theorem strContainsSub_iff {s pat : String} :
    strContainsSub s pat = true ↔ pat.data <:+: s.data := by
  simp [strContainsSub, listIsInfixOf_iff_infix]

/-- `strStartsWith` decides prefix occurrence on the character lists. -/
theorem strStartsWith_iff {s pat : String} :
    strStartsWith s pat = true ↔ pat.data <+: s.data := by
  simp [strStartsWith]

/-- Both interpolated values of a five-part diagnostic occur in it. -/
theorem strContainsSub_five (p x q y r : String) :
    strContainsSub (p ++ x ++ q ++ y ++ r) x = true ∧
    strContainsSub (p ++ x ++ q ++ y ++ r) y = true :=
  ⟨strContainsSub_iff.mpr ⟨p.data, q.data ++ y.data ++ r.data, by simp⟩,
   strContainsSub_iff.mpr ⟨p.data ++ x.data ++ q.data, r.data, by simp⟩⟩

/-- The value appended at the end of a diagnostic occurs in it. -/
theorem strContainsSub_suffix (p x : String) :
    strContainsSub (p ++ x) x = true :=
  strContainsSub_iff.mpr ⟨p.data, [], by simp⟩

/-- C1: for every error descriptor `E` and expected triple `(k, a, m)`
with `E.kind = k`, `E.audience = a`, `E.message = m`, the exact-match
assertion on `Err E` passes; if kind and audience match but the message
differs, it panics with the message-mismatch diagnostic. -/
theorem claim_C1 {α : Type} (reprVal : α → String) (E : KernelError)
    (k : Kind) (a : Audience) (m : String)
    (hk : E.kind = k) (ha : E.audience = a) :
    (E.message = m →
      kernel_error_eq reprVal (.Err E) k a m = .passed ()) ∧
    (E.message ≠ m →
      kernel_error_eq reprVal (.Err E) k a m =
        .panicked (fmtMessageMismatch m E.message)) := by
  refine ⟨fun hm => ?_, fun hm => ?_⟩ <;>
    simp [kernel_error_eq, hk, ha, hm]

/-- Witness for C1 at the spec's scenario: kind `Validation`, audience
`User`, message "name is required"; the same triple passes, the message
"name required" panics with a message mismatch. -/
theorem claim_C1_witness :
    kernel_error_eq (fun n : Nat => toString n)
        (.Err ⟨.Validation, .User, "name is required"⟩)
        .Validation .User "name is required" = .passed () ∧
    kernel_error_eq (fun n : Nat => toString n)
        (.Err ⟨.Validation, .User, "name is required"⟩)
        .Validation .User "name required" =
      .panicked (fmtMessageMismatch "name required" "name is required") :=
  ⟨(claim_C1 (fun n : Nat => toString n)
      ⟨.Validation, .User, "name is required"⟩
      .Validation .User "name is required" rfl rfl).1 rfl,
   (claim_C1 (fun n : Nat => toString n)
      ⟨.Validation, .User, "name is required"⟩
      .Validation .User "name required" rfl rfl).2 (by decide)⟩

/-- C2: in the exact-match assertion the field checks run left to right
— kind, then audience, then message — and the first mismatch panics: a
kind mismatch yields the kind diagnostic whatever the other fields hold
(so the message comparison is never reached), an audience mismatch with
matching kind yields the audience diagnostic, and a message mismatch
with matching kind and audience yields the message diagnostic. -/
theorem claim_C2 {α : Type} (reprVal : α → String) (E : KernelError)
    (k : Kind) (a : Audience) (m : String) :
    (E.kind ≠ k →
      kernel_error_eq reprVal (.Err E) k a m =
        .panicked (fmtKindMismatch k E.kind)) ∧
    (E.kind = k → E.audience ≠ a →
      kernel_error_eq reprVal (.Err E) k a m =
        .panicked (fmtAudienceMismatch a E.audience)) ∧
    (E.kind = k → E.audience = a → E.message ≠ m →
      kernel_error_eq reprVal (.Err E) k a m =
        .panicked (fmtMessageMismatch m E.message)) := by
  refine ⟨fun hk => ?_, fun hk ha => ?_, fun hk ha hm => ?_⟩ <;>
    simp [kernel_error_eq, *]

/-- Witness for C2: concrete kind, audience and message mismatches each
halting with the diagnostic of the first differing field. -/
theorem claim_C2_witness :
    kernel_error_eq (fun n : Nat => toString n)
        (.Err ⟨.Internal, .User, "m"⟩) .Validation .User "m" =
      .panicked (fmtKindMismatch .Validation .Internal) ∧
    kernel_error_eq (fun n : Nat => toString n)
        (.Err ⟨.Validation, .System, "m"⟩) .Validation .User "m" =
      .panicked (fmtAudienceMismatch .User .System) ∧
    kernel_error_eq (fun n : Nat => toString n)
        (.Err ⟨.Validation, .User, "m"⟩) .Validation .User "other" =
      .panicked (fmtMessageMismatch "other" "m") :=
  ⟨(claim_C2 (fun n : Nat => toString n) ⟨.Internal, .User, "m"⟩
      .Validation .User "m").1 (by decide),
   ((claim_C2 (fun n : Nat => toString n) ⟨.Validation, .System, "m"⟩
      .Validation .User "m").2).1 rfl (by decide),
   ((claim_C2 (fun n : Nat => toString n) ⟨.Validation, .User, "m"⟩
      .Validation .User "other").2).2 rfl rfl (by decide)⟩

/-- C3: the presence-only assertion on `Err E` with matching kind and
audience passes for every non-empty message, whatever its content, and
panics with the empty-message diagnostic when the message is empty. -/
theorem claim_C3 {α : Type} (reprVal : α → String) (E : KernelError)
    (k : Kind) (a : Audience) (hk : E.kind = k) (ha : E.audience = a) :
    (E.message ≠ "" →
      kernel_error_has_message reprVal (.Err E) k a = .passed ()) ∧
    (E.message = "" →
      kernel_error_has_message reprVal (.Err E) k a =
        .panicked fmtEmptyMessage) := by
  have hlen : E.message.length = 0 ↔ E.message = "" := by
    rw [String.ext_iff]
    constructor
    · intro h
      have hd : E.message.data.length = 0 := h
      simpa using List.length_eq_zero.mp hd
    · intro h
      have : E.message.length = E.message.data.length := rfl
      simp [this, h]
  refine ⟨fun hm => ?_, fun hm => ?_⟩ <;>
    simp [kernel_error_has_message, hk, ha, hlen, hm]

/-- Witness for C3: a populated message passes, an empty message panics,
with matching kind and audience in both cases. -/
theorem claim_C3_witness :
    kernel_error_has_message (fun n : Nat => toString n)
        (.Err ⟨.NotFound, .System, "anything at all"⟩)
        .NotFound .System = .passed () ∧
    kernel_error_has_message (fun n : Nat => toString n)
        (.Err ⟨.NotFound, .System, ""⟩)
        .NotFound .System = .panicked fmtEmptyMessage :=
  ⟨(claim_C3 (fun n : Nat => toString n) ⟨.NotFound, .System, "anything at all"⟩
      .NotFound .System rfl rfl).1 (by decide),
   (claim_C3 (fun n : Nat => toString n) ⟨.NotFound, .System, ""⟩
      .NotFound .System rfl rfl).2 rfl⟩

/-- C4: the prefix assertion on `Err E` with matching kind and audience
passes exactly when the expected phrase is a prefix of `E.message`
(anchored at offset 0); otherwise it panics with the prefix-mismatch
diagnostic. -/
theorem claim_C4 {α : Type} (reprVal : α → String) (E : KernelError)
    (k : Kind) (a : Audience) (m : String)
    (hk : E.kind = k) (ha : E.audience = a) :
    (kernel_error_starts_with reprVal (.Err E) k a m = .passed () ↔
      m.data <+: E.message.data) ∧
    (¬ m.data <+: E.message.data →
      kernel_error_starts_with reprVal (.Err E) k a m =
        .panicked (fmtStartsWithMismatch m E.message)) := by
  have hiff := @strStartsWith_iff E.message m
  by_cases hpre : m.data <+: E.message.data
  · have hb : strStartsWith E.message m = true := hiff.mpr hpre
    refine ⟨?_, fun hc => absurd hpre hc⟩
    simp [kernel_error_starts_with, hk, ha, hb, hpre]
  · have hb : strStartsWith E.message m = false := by
      cases hB : strStartsWith E.message m
      · rfl
      · exact absurd (hiff.mp hB) hpre
    refine ⟨?_, fun _ => ?_⟩ <;>
      simp [kernel_error_starts_with, hk, ha, hb, hpre]

/-- Witness for C4 at the spec's example: message
"invalid input: field X" passes with expected prefix "invalid input"
and panics with expected prefix "input". -/
theorem claim_C4_witness :
    kernel_error_starts_with (fun n : Nat => toString n)
        (.Err ⟨.Validation, .User, "invalid input: field X"⟩)
        .Validation .User "invalid input" = .passed () ∧
    kernel_error_starts_with (fun n : Nat => toString n)
        (.Err ⟨.Validation, .User, "invalid input: field X"⟩)
        .Validation .User "input" =
      .panicked (fmtStartsWithMismatch "input" "invalid input: field X") :=
  ⟨((claim_C4 (fun n : Nat => toString n)
      ⟨.Validation, .User, "invalid input: field X"⟩
      .Validation .User "invalid input" rfl rfl).1).mpr (by decide),
   (claim_C4 (fun n : Nat => toString n)
      ⟨.Validation, .User, "invalid input: field X"⟩
      .Validation .User "input" rfl rfl).2 (by decide)⟩

/-- C5: the substring assertion on `Err E` with matching kind and
audience passes exactly when the expected phrase occurs somewhere within
`E.message`; otherwise it panics with the substring-mismatch
diagnostic. -/
theorem claim_C5 {α : Type} (reprVal : α → String) (E : KernelError)
    (k : Kind) (a : Audience) (m : String)
    (hk : E.kind = k) (ha : E.audience = a) :
    (kernel_error_contains reprVal (.Err E) k a m = .passed () ↔
      m.data <:+: E.message.data) ∧
    (¬ m.data <:+: E.message.data →
      kernel_error_contains reprVal (.Err E) k a m =
        .panicked (fmtContainsMismatch m E.message)) := by
  have hiff := @strContainsSub_iff E.message m
  by_cases hinf : m.data <:+: E.message.data
  · have hb : strContainsSub E.message m = true := hiff.mpr hinf
    refine ⟨?_, fun hc => absurd hinf hc⟩
    simp [kernel_error_contains, hk, ha, hb, hinf]
  · have hb : strContainsSub E.message m = false := by
      cases hB : strContainsSub E.message m
      · rfl
      · exact absurd (hiff.mp hB) hinf
    refine ⟨?_, fun _ => ?_⟩ <;>
      simp [kernel_error_contains, hk, ha, hb, hinf]

/-- Witness for C5 at the spec's example: message
"invalid input: field X" passes with phrase "field X" and panics with
phrase "field Y". -/
theorem claim_C5_witness :
    kernel_error_contains (fun n : Nat => toString n)
        (.Err ⟨.Validation, .User, "invalid input: field X"⟩)
        .Validation .User "field X" = .passed () ∧
    kernel_error_contains (fun n : Nat => toString n)
        (.Err ⟨.Validation, .User, "invalid input: field X"⟩)
        .Validation .User "field Y" =
      .panicked (fmtContainsMismatch "field Y" "invalid input: field X") :=
  ⟨((claim_C5 (fun n : Nat => toString n)
      ⟨.Validation, .User, "invalid input: field X"⟩
      .Validation .User "field X" rfl rfl).1).mpr (by decide),
   (claim_C5 (fun n : Nat => toString n)
      ⟨.Validation, .User, "invalid input: field X"⟩
      .Validation .User "field Y" rfl rfl).2 (by decide)⟩

/-- C6: the success-unwrap helper returns `v` on `Ok v`; on `Err e` it
panics and its diagnostic contains the rendering of the descriptor
`e`. -/
theorem claim_C6 {α : Type} (v : α) (e : KernelError) :
    is_ok (RustResult.Ok v) = .passed v ∧
    is_ok (@RustResult.Err α e) = .panicked (fmtUnexpectedFailure e) ∧
    strContainsSub (fmtUnexpectedFailure e) e.debugFmt = true :=
  ⟨rfl, rfl, strContainsSub_suffix _ _⟩

/-- C7: the failure-unwrap helper returns `e` on `Err e`; on `Ok v` it
panics with the failure-was-expected diagnostic. -/
theorem claim_C7 {α : Type} (e : KernelError) (v : α) :
    is_error (@RustResult.Err α e) = .passed e ∧
    is_error (RustResult.Ok v) = .panicked fmtErrorExpected :=
  ⟨rfl, rfl⟩

/-- C8: each of the four error-checking assertions applied to `Ok v`
panics with the unexpected-success diagnostic, which contains the
rendering of `v`; the expected kind, audience and message arguments are
arbitrary and do not influence the outcome. -/
theorem claim_C8 {α : Type} (reprVal : α → String) (v : α)
    (k : Kind) (a : Audience) (m : String) :
    kernel_error_eq reprVal (.Ok v) k a m =
      .panicked (fmtUnexpectedOk (reprVal v)) ∧
    kernel_error_has_message reprVal (.Ok v) k a =
      .panicked (fmtUnexpectedOk (reprVal v)) ∧
    kernel_error_starts_with reprVal (.Ok v) k a m =
      .panicked (fmtUnexpectedOkTypo (reprVal v)) ∧
    kernel_error_contains reprVal (.Ok v) k a m =
      .panicked (fmtUnexpectedOkTypo (reprVal v)) ∧
    strContainsSub (fmtUnexpectedOk (reprVal v)) (reprVal v) = true ∧
    strContainsSub (fmtUnexpectedOkTypo (reprVal v)) (reprVal v) = true :=
  ⟨rfl, rfl, rfl, rfl,
   strContainsSub_suffix _ _, strContainsSub_suffix _ _⟩

/-- C10: with matching kind and audience, the prefix assertion and the
substring assertion both pass for the empty expected phrase, whatever
the message is (the empty message included). -/
theorem claim_C10 {α : Type} (reprVal : α → String) (E : KernelError)
    (k : Kind) (a : Audience) (hk : E.kind = k) (ha : E.audience = a) :
    kernel_error_starts_with reprVal (.Err E) k a "" = .passed () ∧
    kernel_error_contains reprVal (.Err E) k a "" = .passed () := by
  have h1 : strStartsWith E.message "" = true := by simp [strStartsWith]
  have h2 : strContainsSub E.message "" = true :=
    strContainsSub_iff.mpr List.nil_infix
  exact ⟨by simp [kernel_error_starts_with, hk, ha, h1],
         by simp [kernel_error_contains, hk, ha, h2]⟩

/-- Witness for C10: the empty expected phrase passes against an empty
message and against a populated one. -/
theorem claim_C10_witness :
    kernel_error_starts_with (fun n : Nat => toString n)
        (.Err ⟨.Internal, .System, ""⟩) .Internal .System "" = .passed () ∧
    kernel_error_contains (fun n : Nat => toString n)
        (.Err ⟨.Internal, .System, ""⟩) .Internal .System "" = .passed () ∧
    kernel_error_starts_with (fun n : Nat => toString n)
        (.Err ⟨.Internal, .System, "abc"⟩) .Internal .System "" =
      .passed () ∧
    kernel_error_contains (fun n : Nat => toString n)
        (.Err ⟨.Internal, .System, "abc"⟩) .Internal .System "" =
      .passed () :=
  ⟨(claim_C10 (fun n : Nat => toString n) ⟨.Internal, .System, ""⟩
      .Internal .System rfl rfl).1,
   (claim_C10 (fun n : Nat => toString n) ⟨.Internal, .System, ""⟩
      .Internal .System rfl rfl).2,
   (claim_C10 (fun n : Nat => toString n) ⟨.Internal, .System, "abc"⟩
      .Internal .System rfl rfl).1,
   (claim_C10 (fun n : Nat => toString n) ⟨.Internal, .System, "abc"⟩
      .Internal .System rfl rfl).2⟩

/-- C9 counterexample: the failure-unwrap helper applied to `Ok 42`
panics with a fixed diagnostic that contains neither an expected nor the
actual value — the rendering "42" of the unexpected success value does
not occur in it — so it is not the case that every failure path reports
both the expected and the actual values. -/
theorem claim_C9_counterexample :
    is_error (RustResult.Ok (42 : Nat)) = .panicked fmtErrorExpected ∧
    strContainsSub fmtErrorExpected (toString (42 : Nat)) = false :=
  ⟨rfl, by decide⟩

/-- The outcome is a panic whose diagnostic contains both given value
renderings (the expected and the actual value of the failed check). -/
def panicsReportingBoth {β : Type} (o : Outcome β) (exp act : String) :
    Prop :=
  ∃ msg, o = .panicked msg ∧
    strContainsSub msg exp = true ∧ strContainsSub msg act = true

/-- The outcome is a panic whose diagnostic contains the given value
rendering (the actual value; no expected value exists on the path). -/
def panicsReporting {β : Type} (o : Outcome β) (act : String) : Prop :=
  ∃ msg, o = .panicked msg ∧ strContainsSub msg act = true

/-- The kind-mismatch diagnostic contains both kind renderings. -/
theorem fmtKindMismatch_mentions (expected actual : Kind) :
    strContainsSub (fmtKindMismatch expected actual) expected.debugFmt =
      true ∧
    strContainsSub (fmtKindMismatch expected actual) actual.debugFmt =
      true :=
  strContainsSub_five _ _ _ _ _

/-- The tab-separated kind-mismatch diagnostic contains both kind
renderings. -/
theorem fmtKindMismatchTab_mentions (expected actual : Kind) :
    strContainsSub (fmtKindMismatchTab expected actual) expected.debugFmt =
      true ∧
    strContainsSub (fmtKindMismatchTab expected actual) actual.debugFmt =
      true :=
  strContainsSub_five _ _ _ _ _

/-- The audience-mismatch diagnostic contains both audience
renderings. -/
theorem fmtAudienceMismatch_mentions (expected actual : Audience) :
    strContainsSub (fmtAudienceMismatch expected actual)
      expected.debugFmt = true ∧
    strContainsSub (fmtAudienceMismatch expected actual)
      actual.debugFmt = true :=
  strContainsSub_five _ _ _ _ _

/-- The tab-separated audience-mismatch diagnostic contains both
audience renderings. -/
theorem fmtAudienceMismatchTab_mentions (expected actual : Audience) :
    strContainsSub (fmtAudienceMismatchTab expected actual)
      expected.debugFmt = true ∧
    strContainsSub (fmtAudienceMismatchTab expected actual)
      actual.debugFmt = true :=
  strContainsSub_five _ _ _ _ _

/-- The message-mismatch diagnostic contains both message renderings. -/
theorem fmtMessageMismatch_mentions (expected actual : String) :
    strContainsSub (fmtMessageMismatch expected actual)
      (rustDebug expected) = true ∧
    strContainsSub (fmtMessageMismatch expected actual)
      (rustDebug actual) = true :=
  strContainsSub_five _ _ _ _ _

/-- The prefix-mismatch diagnostic contains both message renderings. -/
theorem fmtStartsWithMismatch_mentions (expected actual : String) :
    strContainsSub (fmtStartsWithMismatch expected actual)
      (rustDebug expected) = true ∧
    strContainsSub (fmtStartsWithMismatch expected actual)
      (rustDebug actual) = true :=
  strContainsSub_five _ _ _ _ _

/-- The substring-mismatch diagnostic contains both message
renderings. -/
theorem fmtContainsMismatch_mentions (expected actual : String) :
    strContainsSub (fmtContainsMismatch expected actual)
      (rustDebug expected) = true ∧
    strContainsSub (fmtContainsMismatch expected actual)
      (rustDebug actual) = true :=
  strContainsSub_five _ _ _ _ _

/-- C9 (amended): on the kind-, audience- and message-comparison failure
paths of the four error-checking assertions the diagnostic contains both
the expected and the actual values; on the unexpected-success paths of
those four assertions it contains the actual success value, and on the
failure path of the success-unwrap helper it contains the actual error
descriptor (no expected value exists on these paths); the empty-message
path of the presence-only assertion and the success path of the
failure-unwrap helper emit fixed diagnostics that contain no values. -/
theorem claim_C9 {α : Type} (reprVal : α → String) (E : KernelError)
    (k : Kind) (a : Audience) (m : String) (v : α) :
    (E.kind ≠ k →
      panicsReportingBoth (kernel_error_eq reprVal (.Err E) k a m)
        k.debugFmt E.kind.debugFmt) ∧
    (E.kind ≠ k →
      panicsReportingBoth (kernel_error_has_message reprVal (.Err E) k a)
        k.debugFmt E.kind.debugFmt) ∧
    (E.kind ≠ k →
      panicsReportingBoth (kernel_error_starts_with reprVal (.Err E) k a m)
        k.debugFmt E.kind.debugFmt) ∧
    (E.kind ≠ k →
      panicsReportingBoth (kernel_error_contains reprVal (.Err E) k a m)
        k.debugFmt E.kind.debugFmt) ∧
    (E.kind = k → E.audience ≠ a →
      panicsReportingBoth (kernel_error_eq reprVal (.Err E) k a m)
        a.debugFmt E.audience.debugFmt) ∧
    (E.kind = k → E.audience ≠ a →
      panicsReportingBoth (kernel_error_has_message reprVal (.Err E) k a)
        a.debugFmt E.audience.debugFmt) ∧
    (E.kind = k → E.audience ≠ a →
      panicsReportingBoth (kernel_error_starts_with reprVal (.Err E) k a m)
        a.debugFmt E.audience.debugFmt) ∧
    (E.kind = k → E.audience ≠ a →
      panicsReportingBoth (kernel_error_contains reprVal (.Err E) k a m)
        a.debugFmt E.audience.debugFmt) ∧
    (E.kind = k → E.audience = a → E.message ≠ m →
      panicsReportingBoth (kernel_error_eq reprVal (.Err E) k a m)
        (rustDebug m) (rustDebug E.message)) ∧
    (E.kind = k → E.audience = a → strStartsWith E.message m = false →
      panicsReportingBoth (kernel_error_starts_with reprVal (.Err E) k a m)
        (rustDebug m) (rustDebug E.message)) ∧
    (E.kind = k → E.audience = a → strContainsSub E.message m = false →
      panicsReportingBoth (kernel_error_contains reprVal (.Err E) k a m)
        (rustDebug m) (rustDebug E.message)) ∧
    panicsReporting (kernel_error_eq reprVal (.Ok v) k a m) (reprVal v) ∧
    panicsReporting (kernel_error_has_message reprVal (.Ok v) k a)
      (reprVal v) ∧
    panicsReporting (kernel_error_starts_with reprVal (.Ok v) k a m)
      (reprVal v) ∧
    panicsReporting (kernel_error_contains reprVal (.Ok v) k a m)
      (reprVal v) ∧
    panicsReporting (is_ok (@RustResult.Err α E)) E.debugFmt ∧
    (E.kind = k → E.audience = a → E.message = "" →
      kernel_error_has_message reprVal (.Err E) k a =
        .panicked fmtEmptyMessage) ∧
    is_error (RustResult.Ok v) = .panicked fmtErrorExpected := by
  refine ⟨fun hk => ?_, fun hk => ?_, fun hk => ?_, fun hk => ?_,
    fun hk ha => ?_, fun hk ha => ?_, fun hk ha => ?_, fun hk ha => ?_,
    fun hk ha hm => ?_, fun hk ha hm => ?_, fun hk ha hm => ?_,
    ?_, ?_, ?_, ?_, ?_, fun hk ha hm => ?_, rfl⟩
  · exact ⟨_, by simp [kernel_error_eq, hk],
      (fmtKindMismatch_mentions k E.kind).1,
      (fmtKindMismatch_mentions k E.kind).2⟩
  · exact ⟨_, by simp [kernel_error_has_message, hk],
      (fmtKindMismatch_mentions k E.kind).1,
      (fmtKindMismatch_mentions k E.kind).2⟩
  · exact ⟨_, by simp [kernel_error_starts_with, hk],
      (fmtKindMismatchTab_mentions k E.kind).1,
      (fmtKindMismatchTab_mentions k E.kind).2⟩
  · exact ⟨_, by simp [kernel_error_contains, hk],
      (fmtKindMismatch_mentions k E.kind).1,
      (fmtKindMismatch_mentions k E.kind).2⟩
  · exact ⟨_, by simp [kernel_error_eq, hk, ha],
      (fmtAudienceMismatch_mentions a E.audience).1,
      (fmtAudienceMismatch_mentions a E.audience).2⟩
  · exact ⟨_, by simp [kernel_error_has_message, hk, ha],
      (fmtAudienceMismatch_mentions a E.audience).1,
      (fmtAudienceMismatch_mentions a E.audience).2⟩
  · exact ⟨_, by simp [kernel_error_starts_with, hk, ha],
      (fmtAudienceMismatchTab_mentions a E.audience).1,
      (fmtAudienceMismatchTab_mentions a E.audience).2⟩
  · exact ⟨_, by simp [kernel_error_contains, hk, ha],
      (fmtAudienceMismatch_mentions a E.audience).1,
      (fmtAudienceMismatch_mentions a E.audience).2⟩
  · exact ⟨_, by simp [kernel_error_eq, hk, ha, hm],
      (fmtMessageMismatch_mentions m E.message).1,
      (fmtMessageMismatch_mentions m E.message).2⟩
  · exact ⟨_, by simp [kernel_error_starts_with, hk, ha, hm],
      (fmtStartsWithMismatch_mentions m E.message).1,
      (fmtStartsWithMismatch_mentions m E.message).2⟩
  · exact ⟨_, by simp [kernel_error_contains, hk, ha, hm],
      (fmtContainsMismatch_mentions m E.message).1,
      (fmtContainsMismatch_mentions m E.message).2⟩
  · exact ⟨_, rfl, strContainsSub_suffix _ _⟩
  · exact ⟨_, rfl, strContainsSub_suffix _ _⟩
  · exact ⟨_, rfl, strContainsSub_suffix _ _⟩
  · exact ⟨_, rfl, strContainsSub_suffix _ _⟩
  · exact ⟨_, rfl, strContainsSub_suffix _ _⟩
  · have hlen : E.message.length = 0 := by simp [hm]
    simp [kernel_error_has_message, hk, ha, hlen]

/-- Witness for C9: concrete kind, audience and message mismatches for
each assertion whose diagnostic carries both values, and the concrete
empty-message panic of the presence-only assertion. -/
theorem claim_C9_witness :
    panicsReportingBoth (kernel_error_eq (fun n : Nat => toString n)
        (.Err ⟨.Internal, .User, "x"⟩) .Validation .User "x")
      Kind.Validation.debugFmt Kind.Internal.debugFmt ∧
    panicsReportingBoth (kernel_error_has_message (fun n : Nat => toString n)
        (.Err ⟨.Internal, .User, "x"⟩) .Validation .User)
      Kind.Validation.debugFmt Kind.Internal.debugFmt ∧
    panicsReportingBoth (kernel_error_starts_with (fun n : Nat => toString n)
        (.Err ⟨.Internal, .User, "x"⟩) .Validation .User "x")
      Kind.Validation.debugFmt Kind.Internal.debugFmt ∧
    panicsReportingBoth (kernel_error_contains (fun n : Nat => toString n)
        (.Err ⟨.Internal, .User, "x"⟩) .Validation .User "x")
      Kind.Validation.debugFmt Kind.Internal.debugFmt ∧
    panicsReportingBoth (kernel_error_eq (fun n : Nat => toString n)
        (.Err ⟨.Validation, .System, "x"⟩) .Validation .User "x")
      Audience.User.debugFmt Audience.System.debugFmt ∧
    panicsReportingBoth (kernel_error_has_message (fun n : Nat => toString n)
        (.Err ⟨.Validation, .System, "x"⟩) .Validation .User)
      Audience.User.debugFmt Audience.System.debugFmt ∧
    panicsReportingBoth (kernel_error_starts_with (fun n : Nat => toString n)
        (.Err ⟨.Validation, .System, "x"⟩) .Validation .User "x")
      Audience.User.debugFmt Audience.System.debugFmt ∧
    panicsReportingBoth (kernel_error_contains (fun n : Nat => toString n)
        (.Err ⟨.Validation, .System, "x"⟩) .Validation .User "x")
      Audience.User.debugFmt Audience.System.debugFmt ∧
    panicsReportingBoth (kernel_error_eq (fun n : Nat => toString n)
        (.Err ⟨.Validation, .User, "x"⟩) .Validation .User "y")
      (rustDebug "y") (rustDebug "x") ∧
    panicsReportingBoth (kernel_error_starts_with (fun n : Nat => toString n)
        (.Err ⟨.Validation, .User, "x"⟩) .Validation .User "y")
      (rustDebug "y") (rustDebug "x") ∧
    panicsReportingBoth (kernel_error_contains (fun n : Nat => toString n)
        (.Err ⟨.Validation, .User, "x"⟩) .Validation .User "y")
      (rustDebug "y") (rustDebug "x") ∧
    kernel_error_has_message (fun n : Nat => toString n)
        (.Err ⟨.Validation, .User, ""⟩) .Validation .User =
      .panicked fmtEmptyMessage := by
  obtain ⟨k1, k2, k3, k4, -, -, -, -, -, -, -, -, -, -, -, -, -, -⟩ :=
    claim_C9 (fun n : Nat => toString n) ⟨.Internal, .User, "x"⟩
      .Validation .User "x" 0
  obtain ⟨-, -, -, -, a1, a2, a3, a4, -, -, -, -, -, -, -, -, -, -⟩ :=
    claim_C9 (fun n : Nat => toString n) ⟨.Validation, .System, "x"⟩
      .Validation .User "x" 0
  obtain ⟨-, -, -, -, -, -, -, -, m1, m2, m3, -, -, -, -, -, -, -⟩ :=
    claim_C9 (fun n : Nat => toString n) ⟨.Validation, .User, "x"⟩
      .Validation .User "y" 0
  obtain ⟨-, -, -, -, -, -, -, -, -, -, -, -, -, -, -, -, e1, -⟩ :=
    claim_C9 (fun n : Nat => toString n) ⟨.Validation, .User, ""⟩
      .Validation .User "y" 0
  exact ⟨k1 (by decide), k2 (by decide), k3 (by decide), k4 (by decide),
    a1 rfl (by decide), a2 rfl (by decide), a3 rfl (by decide),
    a4 rfl (by decide),
    m1 rfl rfl (by decide), m2 rfl rfl (by decide), m3 rfl rfl (by decide),
    e1 rfl rfl rfl⟩
